import Mathlib

/-!
Shallow embedding of the screen-assistant application, translated from
`src/token_auth.py`, `src/region_selector.py` and `src/main.py`, together
with theorems settling the specification claims about those functions.
-/

/-- An in-memory raster image: PIL images are modelled by their dimensions,
which is all the claims under verification depend on. -/
structure Img where
  width : Nat
  height : Nat
deriving DecidableEq, Repr

/-- Python truthiness of an optional string: `None` and the empty string are
falsy, every other string is truthy. -/
def envTruthy : Option String → Bool
  | none => false
  | some s => decide (s ≠ "")

/-- Python `a or b` on optional strings: yields `a` when `a` is truthy,
otherwise `b`. -/
def pyOr (a b : Option String) : Option String :=
  if envTruthy a then a else b

/-- `s` contains `sub` as a contiguous substring (stated on the underlying
character lists). -/
def strContains (s sub : String) : Prop :=
  ∃ l r, s.data = l ++ sub.data ++ r

/-- An HTTP response as produced by `requests.post` in `token_auth.py`:
a numeric status code and the response body text. -/
structure HttpResp where
  status_code : Nat
  text : String
deriving DecidableEq

/-- The `Response` wrapper built on the success path of
`BedrockTokenClient.invoke_model`: `body.read()` yields `body_read`. -/
structure TAResponse where
  body_read : String
  status_code : Nat
deriving DecidableEq

/-- `BedrockTokenClient.invoke_model` from `src/token_auth.py`, as a function
of the HTTP response the POST produced.  A non-200 status raises
(`Except.error`) with the Python message
`f"API call failed with status {response.status_code}: {response.text}"`;
a 200 status returns the wrapper object. -/
def BedrockTokenClient.invoke_model (resp : HttpResp) : Except String TAResponse :=
  if resp.status_code ≠ 200 then
    Except.error ("API call failed with status " ++ toString resp.status_code
      ++ ": " ++ resp.text)
  else
    Except.ok { body_read := resp.text, status_code := resp.status_code }

/-- The state of a successfully constructed `BedrockTokenClient`. -/
structure TokenClient where
  token : String
  region : String
  base_url : String
deriving DecidableEq

/-- `BedrockTokenClient.__init__` from `src/token_auth.py`:
`self.token = token or os.environ.get('AWS_BEARER_TOKEN_BEDROCK')`, raising
`ValueError("No Bedrock API token provided")` when the result is falsy, and
otherwise recording the region-scoped base URL. -/
def BedrockTokenClient.init (token envToken : Option String) (region : String) :
    Except String TokenClient :=
  let t := pyOr token envToken
  if envTruthy t then
    Except.ok { token := t.getD "", region := region,
                base_url := "https://bedrock-runtime." ++ region ++ ".amazonaws.com" }
  else
    Except.error "No Bedrock API token provided"

/-- `int(width * 0.75)` / `int(height * 0.75)` from `compress_image` in
`src/main.py`: since 0.75 is exactly representable and the products are exact
for realistic dimensions, this is the natural-number floor of `3*d/4`. -/
def resize75 (img : Img) : Img := ⟨3 * img.width / 4, 3 * img.height / 4⟩

/-- Observable outcome of `compress_image`: the images that were PNG-encoded
(in encoding order) and the image whose encoding fills the returned buffer. -/
structure CompressOut where
  encodedImages : List Img
  returnedImg : Img
deriving DecidableEq

/-- `compress_image` from `src/main.py`, with the PIL PNG encoder abstracted as
`pngSize : Img → Nat` giving the encoded byte size of an image.  The source test
`buffer.tell() / 1024 > 1000` on a byte count `b` (exact float division by a
power of two) holds exactly when `1024000 < b`. -/
def compress_image (pngSize : Img → Nat) (image : Img) : CompressOut :=
  let compressed_size := pngSize image
  if 1024000 < compressed_size then
    { encodedImages := [image, resize75 image], returnedImg := resize75 image }
  else
    { encodedImages := [image], returnedImg := image }

/-- A sample encoder used to exercise `compress_image`: byte size equal to the
pixel count. -/
def sizeArea : Img → Nat := fun i => i.width * i.height

/-- An encoder on which the downscaled image encodes to more bytes than the
original (PNG gives no monotonicity guarantee, and neither does the code). -/
def sizeAdversarial : Img → Nat := fun i =>
  if i.width = 4000 then 1100000 else 1300000

/-- Truncation of a rational to a natural number, as Python's `int(...)` does
on the nonnegative scaled dimensions (truncation toward zero coincides with
the floor there). -/
def qtrunc (q : ℚ) : Nat := ⌊q⌋₊

/-- `generate_thumbnail` from `src/main.py` (dimension arithmetic): the scale
ratio is `min(max_width/width, max_height/height)` computed in exact
arithmetic, and the thumbnail dimensions are `int(width*ratio)`,
`int(height*ratio)`.  The default bounds from `THUMBNAIL_CONFIG` are 200×150. -/
def generate_thumbnail (image : Img) (max_width max_height : Nat) : Img :=
  let width_ratio : ℚ := (max_width : ℚ) / (image.width : ℚ)
  let height_ratio : ℚ := (max_height : ℚ) / (image.height : ℚ)
  let scale_ratio := min width_ratio height_ratio
  ⟨qtrunc ((image.width : ℚ) * scale_ratio),
   qtrunc ((image.height : ℚ) * scale_ratio)⟩

/-- Outcome of a `subprocess.run` call: whether it raised (e.g. a timeout) and
otherwise its exit code. -/
structure RunOutcome where
  raised : Bool
  returncode : Int
deriving DecidableEq

/-- Environment of `_capture_mss` in `src/region_selector.py`: whether the MSS
library raises, and the images obtainable by grabbing each monitor
(`sct.monitors`, whose entry 0 is the all-monitors aggregate). -/
structure MssEnv where
  raises : Bool
  monitors : List Img
deriving DecidableEq

/-- Which temporary screenshot files still exist on disk when the capture
routine returns. -/
structure TempFS where
  tempTest : Bool
  tempFinal : Bool
deriving DecidableEq

/-- Environment of the macOS capture path in `src/region_selector.py`: results
of the two `screencapture` runs, `os.path.exists` checks, `Image.open` decodes
(`none` models a raised decode, e.g. on a zero-byte file), the
`getcolors(maxcolors=100)` result (`none` models Python `None`, i.e. more than
100 unique colors), and the behaviour of the permission dialog. -/
structure MacEnv where
  testRun : RunOutcome
  testExists : Bool
  testDecode : Option Img
  testColors : Option Nat
  finalRun : RunOutcome
  finalExists : Bool
  finalDecode : Option Img
  dialogRaises : Bool
  dialogYes : Bool
  mss : MssEnv
deriving DecidableEq

/-- `RegionSelector._capture_mss`: on any library failure return `None`;
otherwise grab monitor 1 when more than one entry exists, else monitor 0
(an empty monitor list makes the indexing raise, caught as `None`). -/
def capture_mss (m : MssEnv) : Option Img :=
  if m.raises then none
  else
    match m.monitors with
    | [] => none
    | [m0] => some m0
    | _ :: m1 :: _ => some m1

/-- `RegionSelector._show_permission_dialog`: a dialog failure falls back to
MSS capture; a Yes answer tries MSS capture; a No answer returns `None`. -/
def show_permission_dialog (env : MacEnv) : Option Img :=
  if env.dialogRaises then capture_mss env.mss
  else if env.dialogYes then capture_mss env.mss
  else none

/-- The blank-desktop test `if colors and len(colors) < 10` on the
`getcolors` result: `None` and the empty list are falsy. -/
def fewColors : Option Nat → Bool
  | none => false
  | some n => decide (0 < n ∧ n < 10)

/-- `RegionSelector._capture_macos_with_permission_check` from
`src/region_selector.py`, returning the captured image (or `None`) together
with which temp files remain on disk.  The test capture writes `temp_test`;
on success and enough colors it is unlinked and the final capture writes
`temp_final`; every raised exception jumps to the handler, which returns via
the permission dialog without unlinking anything. -/
def capture_macos_with_permission_check (env : MacEnv) : Option Img × TempFS :=
  if env.testRun.raised then
    (show_permission_dialog env, ⟨true, false⟩)
  else
    if env.testRun.returncode = 0 ∧ env.testExists then
      match env.testDecode with
      | none => (show_permission_dialog env, ⟨env.testExists, false⟩)
      | some _ =>
        if fewColors env.testColors then
          (show_permission_dialog env, ⟨false, false⟩)
        else
          if env.finalRun.raised then
            (show_permission_dialog env, ⟨false, true⟩)
          else
            if env.finalRun.returncode = 0 ∧ env.finalExists then
              match env.finalDecode with
              | none => (show_permission_dialog env, ⟨false, env.finalExists⟩)
              | some img => (some img, ⟨false, false⟩)
            else
              (none, ⟨false, false⟩)
    else
      (show_permission_dialog env, ⟨false, false⟩)

/-- `RegionSelector.capture_full_screen`: dispatch on the platform — the macOS
path with permission checking, or MSS elsewhere (which touches no temp
files). -/
def capture_full_screen (isDarwin : Bool) (env : MacEnv) : Option Img × TempFS :=
  if isDarwin then capture_macos_with_permission_check env
  else (capture_mss env.mss, ⟨false, false⟩)

/-- Decidable check that an image has positive dimensions. -/
def imgPos (i : Img) : Bool := decide (0 < i.width) && decide (0 < i.height)

/-- Decidable check that a decode result, if any, has positive dimensions. -/
def optPos : Option Img → Bool
  | none => true
  | some i => imgPos i

/-- Decidable check that every image the environment can hand to the capture
code (decodes and monitor grabs) has positive dimensions, which is how PIL
decodes and MSS monitor descriptors behave. -/
def envImagesPos (env : MacEnv) : Bool :=
  optPos env.testDecode && optPos env.finalDecode && env.mss.monitors.all imgPos

/-- Concrete environment: the final capture succeeds but its output file is
zero-byte, so the decode raises; the permission dialog works, the user answers
Yes, and MSS succeeds on a single 800×600 monitor. -/
def envZeroByteFinal : MacEnv :=
  { testRun := ⟨false, 0⟩, testExists := true, testDecode := some ⟨1440, 900⟩,
    testColors := none, finalRun := ⟨false, 0⟩, finalExists := true,
    finalDecode := none, dialogRaises := false, dialogYes := true,
    mss := ⟨false, [⟨800, 600⟩]⟩ }

/-- Concrete environment: the test `screencapture` run raises (times out)
right after `temp_test` was created; the dialog is declined. -/
def envTestRaises : MacEnv :=
  { testRun := ⟨true, 0⟩, testExists := true, testDecode := none,
    testColors := none, finalRun := ⟨false, 0⟩, finalExists := false,
    finalDecode := none, dialogRaises := false, dialogYes := false,
    mss := ⟨false, []⟩ }

/-- Concrete environment: a fully successful macOS capture (test and final
runs exit 0, both files decode, plenty of colors). -/
def envAllOk : MacEnv :=
  { testRun := ⟨false, 0⟩, testExists := true, testDecode := some ⟨1440, 900⟩,
    testColors := none, finalRun := ⟨false, 0⟩, finalExists := true,
    finalDecode := some ⟨1440, 900⟩, dialogRaises := false, dialogYes := false,
    mss := ⟨false, [⟨800, 600⟩]⟩ }

/-- Concrete environment: test capture fine, final capture exits non-zero. -/
def envFinalFails : MacEnv :=
  { testRun := ⟨false, 0⟩, testExists := true, testDecode := some ⟨1440, 900⟩,
    testColors := none, finalRun := ⟨false, 1⟩, finalExists := true,
    finalDecode := some ⟨1440, 900⟩, dialogRaises := false, dialogYes := false,
    mss := ⟨false, []⟩ }

/-- UI-visible events of one analysis cycle, in the order the worker threads
of `src/main.py` post them to the UI thread. -/
inductive UiEvent where
  | progressEv (pct : Nat) (msg : String)
  | withdrawWindow
  | sleepSettle (tenths : Nat)
  | deiconifyWindow
  | setStatus (msg : String)
  | resetUi
  | showApproval (img : Img)
  | invokeModel
  | showResults
deriving DecidableEq

/-- `analyze_screen_thread` from `src/main.py` as the event trace it produces,
as a function of the capture result: hide the window, capture, restore the
window; on a `None` capture report "Screenshot failed" and reset the UI;
otherwise show the screenshot for approval. -/
def analyze_screen_thread (capture : Option Img) : List UiEvent :=
  [UiEvent.progressEv 10 "Preparing to capture screen...",
   UiEvent.withdrawWindow,
   UiEvent.sleepSettle 20,
   UiEvent.progressEv 30 "Capturing screen...",
   UiEvent.sleepSettle 5,
   UiEvent.deiconifyWindow] ++
  match capture with
  | none => [UiEvent.setStatus "Screenshot failed", UiEvent.resetUi]
  | some img => [UiEvent.progressEv 50 "Screenshot captured! Review below...",
                 UiEvent.showApproval img]

/-- `ai_analysis_thread` (with `analyze_screen`) from `src/main.py` as its
event trace: progress updates, then exactly one model invocation unless in
mock mode, then results and a UI reset. -/
def ai_analysis_thread (mock : Bool) : List UiEvent :=
  [UiEvent.progressEv 60 "Processing image...",
   UiEvent.progressEv 70 "Compressing image...",
   UiEvent.progressEv 80 "Sending to AI...",
   UiEvent.progressEv 90 "AI is analyzing your screen..."] ++
  (if mock then [] else [UiEvent.invokeModel]) ++
  [UiEvent.progressEv 100 "Analysis complete!", UiEvent.showResults, UiEvent.resetUi]

/-- One full analysis cycle: the capture thread, then — only if a screenshot
was produced and the user approves it — the AI analysis thread. -/
def analysis_cycle (capture : Option Img) (userApproves mock : Bool) : List UiEvent :=
  analyze_screen_thread capture ++
  match capture with
  | none => []
  | some _ => if userApproves then ai_analysis_thread mock else []

/-- Whether an event is a call to the network model client. -/
def isInvokeModel : UiEvent → Bool
  | UiEvent.invokeModel => true
  | _ => false

/-- Number of network client calls in a trace. -/
def networkCalls (evs : List UiEvent) : Nat := (evs.filter isInvokeModel).length

/-- The orchestrator state of `ScreenAssistantApp` relevant to cycle
serialization: the `analyzing` flag from the source, plus a ghost counter of
cycles started but not yet ended. -/
structure AppState where
  analyzing : Bool
  inFlight : Nat
deriving DecidableEq

/-- `on_analyze_clicked` from `src/main.py`: a no-op while `analyzing` is set,
otherwise it sets the flag and starts a cycle (ghost counter incremented). -/
def on_analyze_clicked (s : AppState) : AppState :=
  if s.analyzing then s else { analyzing := true, inFlight := s.inFlight + 1 }

/-- `reset_ui` from `src/main.py`: clears the `analyzing` flag at the end of a
cycle (ghost counter decremented). -/
def reset_ui (s : AppState) : AppState :=
  { analyzing := false, inFlight := s.inFlight - 1 }

/-- External events driving the orchestrator state. -/
inductive OrchEvent where
  | clickAnalyze
  | cycleEnd
deriving DecidableEq

/-- One step of the orchestrator: a click runs `on_analyze_clicked`; a cycle
ending in completion or failure runs `reset_ui`. -/
def orch_step (s : AppState) : OrchEvent → AppState
  | OrchEvent.clickAnalyze => on_analyze_clicked s
  | OrchEvent.cycleEnd => reset_ui s

/-- Validity of an event sequence: `reset_ui` is only ever invoked from inside
a running cycle (its worker thread), so `cycleEnd` can only occur while
`analyzing` is set. -/
def validFrom : AppState → List OrchEvent → Bool
  | _, [] => true
  | s, e :: rest =>
    (match e with
     | OrchEvent.cycleEnd => s.analyzing
     | OrchEvent.clickAnalyze => true) && validFrom (orch_step s e) rest

/-- Run a sequence of orchestrator events from a state. -/
def runTrace (s : AppState) : List OrchEvent → AppState
  | [] => s
  | e :: rest => runTrace (orch_step s e) rest

/-- The initial state of `ScreenAssistantApp.__init__`: not analyzing. -/
def initState : AppState := ⟨false, 0⟩

/-- The serialization invariant: at most one cycle in flight, and the
`analyzing` flag is set exactly while one is. -/
def orchInv (s : AppState) : Prop :=
  s.inFlight ≤ 1 ∧ (s.analyzing = true ↔ s.inFlight = 1)

/-- Credentials entered in the `CredentialsDialog` of `src/main.py`. -/
structure Creds where
  access_key : String
  secret_key : String
  region : String
deriving DecidableEq

/-- The Bedrock client object held by the application. -/
inductive BedrockClient where
  | noClient
  | standardClient (region : String)
deriving DecidableEq

/-- The client-selection state produced by `setup_aws_client`. -/
structure AwsState where
  using_bearer_token : Bool
  bedrock_token : Option String
  bedrock : BedrockClient
  mock_mode : Bool
deriving DecidableEq

/-- `os.environ.get('AWS_REGION', 'us-east-1')`. -/
def getRegion (envRegion : Option String) : String := envRegion.getD "us-east-1"

/-- `setup_aws_client` from `src/main.py`, as a function of the environment:
a truthy `AWS_BEARER_TOKEN_BEDROCK` selects the bearer-token strategy (token
stored, `using_bearer_token = True`, a standard client still created);
otherwise the static-credential strategy sets `using_bearer_token = False` and
creates a standard client, then tests the credentials with STS — on failure
the credentials dialog either supplies new credentials (a fresh standard
client) or, when cancelled, switches to mock mode. -/
def setup_aws_client (envBearer envRegion : Option String) (stsOk : Bool)
    (dialogResult : Option Creds) : AwsState :=
  if envTruthy envBearer then
    { using_bearer_token := true, bedrock_token := envBearer,
      bedrock := BedrockClient.standardClient (getRegion envRegion),
      mock_mode := false }
  else
    if stsOk then
      { using_bearer_token := false, bedrock_token := none,
        bedrock := BedrockClient.standardClient (getRegion envRegion),
        mock_mode := false }
    else
      match dialogResult with
      | some c =>
        { using_bearer_token := false, bedrock_token := none,
          bedrock := BedrockClient.standardClient c.region, mock_mode := false }
      | none =>
        { using_bearer_token := false, bedrock_token := none,
          bedrock := BedrockClient.standardClient (getRegion envRegion),
          mock_mode := true }

/-- Claim C1: for every call to `BedrockTokenClient.invoke_model`, a non-200
HTTP status raises an exception whose message contains the status code and the
response body text, and a 200 status raises nothing and returns an object with
`status_code = 200` whose `body.read()` yields the raw response body text. -/
theorem claim_c1 (resp : HttpResp) :
    (resp.status_code ≠ 200 →
      ∃ msg, BedrockTokenClient.invoke_model resp = Except.error msg ∧
        strContains msg (toString resp.status_code) ∧ strContains msg resp.text) ∧
    (resp.status_code = 200 →
      BedrockTokenClient.invoke_model resp = Except.ok ⟨resp.text, 200⟩) := by
  constructor
  · intro h
    refine ⟨"API call failed with status " ++ toString resp.status_code
      ++ ": " ++ resp.text, ?_, ?_, ?_⟩
    · simp [BedrockTokenClient.invoke_model, h]
    · exact ⟨"API call failed with status ".data, (": " ++ resp.text).data,
        by simp [String.data_append]⟩
    · exact ⟨("API call failed with status " ++ toString resp.status_code ++ ": ").data,
        [], by simp [String.data_append]⟩
  · intro h
    simp [BedrockTokenClient.invoke_model, h]

/-- Witness for claim C1 at the concrete responses 404/"err body" and
200/"payload". -/
theorem claim_c1_witness :
    (∃ msg, BedrockTokenClient.invoke_model ⟨404, "err body"⟩ = Except.error msg ∧
      strContains msg (toString (404 : Nat)) ∧ strContains msg "err body") ∧
    BedrockTokenClient.invoke_model ⟨200, "payload"⟩ = Except.ok ⟨"payload", 200⟩ :=
  ⟨(claim_c1 ⟨404, "err body"⟩).1 (by decide),
   (claim_c1 ⟨200, "payload"⟩).2 rfl⟩

/-- Claim C10: constructing a `BedrockTokenClient` with no token argument and
no token in the environment raises `ValueError("No Bedrock API token
provided")`; with a (non-empty) token available — whether passed as the
constructor argument or found in `AWS_BEARER_TOKEN_BEDROCK` — construction
succeeds and the base URL is the region-scoped endpoint
`https://bedrock-runtime.{region}.amazonaws.com`. -/
theorem claim_c10 (region t : String) (envToken : Option String) (h : t ≠ "") :
    BedrockTokenClient.init none none region =
      Except.error "No Bedrock API token provided" ∧
    BedrockTokenClient.init (some t) envToken region =
      Except.ok ⟨t, region, "https://bedrock-runtime." ++ region ++ ".amazonaws.com"⟩ ∧
    BedrockTokenClient.init none (some t) region =
      Except.ok ⟨t, region, "https://bedrock-runtime." ++ region ++ ".amazonaws.com"⟩ := by
  refine ⟨rfl, ?_, ?_⟩
  · simp [BedrockTokenClient.init, pyOr, envTruthy, h]
  · simp [BedrockTokenClient.init, pyOr, envTruthy, h]

/-- Witness for claim C10 at region "us-east-1" and token "tok123", both as a
constructor argument and as the environment fallback. -/
theorem claim_c10_witness :
    BedrockTokenClient.init none none "us-east-1" =
      Except.error "No Bedrock API token provided" ∧
    BedrockTokenClient.init (some "tok123") none "us-east-1" =
      Except.ok ⟨"tok123", "us-east-1",
        "https://bedrock-runtime." ++ "us-east-1" ++ ".amazonaws.com"⟩ ∧
    BedrockTokenClient.init none (some "tok123") "us-east-1" =
      Except.ok ⟨"tok123", "us-east-1",
        "https://bedrock-runtime." ++ "us-east-1" ++ ".amazonaws.com"⟩ :=
  claim_c10 "us-east-1" "tok123" none (by decide)

/-- Claim C2: `compress_image` first PNG-encodes the image; exactly when the
encoded size exceeds the 1000 KB threshold it downscales once by the linear
factor 0.75 (dimensions `int(0.75*w)`, `int(0.75*h)`) and re-encodes exactly
once, returning that second encoding regardless of its size; otherwise it
returns the first encoding unchanged.  In all cases at most two encodings are
performed. -/
theorem claim_c2 (pngSize : Img → Nat) (image : Img) :
    (1024000 < pngSize image →
      compress_image pngSize image =
        ⟨[image, ⟨3 * image.width / 4, 3 * image.height / 4⟩],
          ⟨3 * image.width / 4, 3 * image.height / 4⟩⟩) ∧
    (pngSize image ≤ 1024000 →
      compress_image pngSize image = ⟨[image], image⟩) ∧
    (compress_image pngSize image).encodedImages.length ≤ 2 := by
  refine ⟨fun h => ?_, fun h => ?_, ?_⟩
  · simp [compress_image, resize75, h]
  · simp [compress_image, Nat.not_lt.mpr h]
  · by_cases h : 1024000 < pngSize image <;> simp [compress_image, h]

/-- Witness for claim C2: a 2000×1000 image whose encoding (2 MB under
`sizeArea`) exceeds the threshold is downscaled to 1500×750 and re-encoded
once; a 10×10 image is returned from its first encoding unchanged. -/
theorem claim_c2_witness :
    compress_image sizeArea ⟨2000, 1000⟩ =
      ⟨[⟨2000, 1000⟩, ⟨3 * 2000 / 4, 3 * 1000 / 4⟩], ⟨3 * 2000 / 4, 3 * 1000 / 4⟩⟩ ∧
    compress_image sizeArea ⟨10, 10⟩ = ⟨[⟨10, 10⟩], ⟨10, 10⟩⟩ :=
  ⟨(claim_c2 sizeArea ⟨2000, 1000⟩).1 (by decide),
   (claim_c2 sizeArea ⟨10, 10⟩).2.1 (by decide)⟩

/-- Counterexample to claim C7 as stated: an encoder and a 4000×3000 input on
which the downscale is triggered (first encoding 1100000 bytes > 1024000) and
the encoding after the 0.75 downscale pass is strictly larger (1300000 bytes)
than before it; `compress_image` nevertheless returns the larger second
encoding.  The code imposes no non-increase relation between the two sizes. -/
theorem claim_c7_counterexample :
    1024000 < sizeAdversarial ⟨4000, 3000⟩ ∧
    (compress_image sizeAdversarial ⟨4000, 3000⟩).returnedImg = resize75 ⟨4000, 3000⟩ ∧
    sizeAdversarial ⟨4000, 3000⟩ < sizeAdversarial (resize75 ⟨4000, 3000⟩) := by
  decide

/-- Claim C7 (amended): the single 0.75 downscale pass strictly reduces the
pixel area of the image (for positive dimensions), and the re-encoded buffer
is returned unconditionally whenever the threshold was exceeded; the encoded
byte size itself is not guaranteed to be non-increasing by the code. -/
theorem claim_c7 (pngSize : Img → Nat) (image : Img)
    (hw : 0 < image.width) (hh : 0 < image.height) :
    (resize75 image).width * (resize75 image).height < image.width * image.height ∧
    (1024000 < pngSize image →
      (compress_image pngSize image).returnedImg = resize75 image) := by
  constructor
  · have h1 : 3 * image.width / 4 < image.width := by omega
    have h2 : 3 * image.height / 4 < image.height := by omega
    exact mul_lt_mul'' h1 h2 (Nat.zero_le _) (Nat.zero_le _)
  · intro h
    simp [compress_image, h]

/-- Witness for claim C7 (amended) at a 2000×2000 image with the `sizeArea`
encoder (4 MB first encoding, so the downscale pass runs). -/
theorem claim_c7_witness :
    (resize75 ⟨2000, 2000⟩).width * (resize75 ⟨2000, 2000⟩).height < 2000 * 2000 ∧
    (compress_image sizeArea ⟨2000, 2000⟩).returnedImg = resize75 ⟨2000, 2000⟩ := by
  have h := claim_c7 sizeArea ⟨2000, 2000⟩ (by decide) (by decide)
  exact ⟨h.1, h.2 (by decide)⟩

/-- Evaluation rule for the truncated scaled dimensions: multiplying a natural
number by a ratio of naturals and truncating is natural-number division. -/
lemma qtrunc_mul_div (a p q : ℕ) :
    qtrunc ((a : ℚ) * ((p : ℚ) / (q : ℚ))) = a * p / q := by
  rw [show (a : ℚ) * ((p : ℚ) / (q : ℚ)) = ((a * p : ℕ) : ℚ) / ((q : ℕ) : ℚ) by
    push_cast; ring]
  exact Rat.natFloor_natCast_div_natCast _ _

/-- Counterexample to claim C8 as stated: the 400×3 image (positive area) is
thumbnailed with the default 200×150 bounds to 200×1, and the aspect-ratio
deviation |400/3 − 200/1| = 200/3 is far above the 0.01 tolerance: integer
truncation of the scaled height (1.5 → 1) destroys the ratio. -/
theorem claim_c8_counterexample :
    generate_thumbnail ⟨400, 3⟩ 200 150 = ⟨200, 1⟩ ∧
    ¬ (|(400 : ℚ) / 3 - (200 : ℚ) / 1| < 1 / 100) := by
  constructor
  · have hmin : min (((200 : ℕ) : ℚ) / ((400 : ℕ) : ℚ)) (((150 : ℕ) : ℚ) / ((3 : ℕ) : ℚ)) =
        ((200 : ℕ) : ℚ) / ((400 : ℕ) : ℚ) := by
      rw [min_def]
      norm_num
    simp only [generate_thumbnail]
    rw [show ((⟨400, 3⟩ : Img).width : ℚ) = ((400 : ℕ) : ℚ) from rfl,
        show ((⟨400, 3⟩ : Img).height : ℚ) = ((3 : ℕ) : ℚ) from rfl, hmin,
        qtrunc_mul_div, qtrunc_mul_div]
  · have h : (400 : ℚ) / 3 - 200 / 1 = -(200 / 3) := by norm_num
    rw [h, abs_neg, abs_of_nonneg (by norm_num : (0 : ℚ) ≤ 200 / 3)]
    norm_num

/-- Claim C8 (amended): for positive dimensions and bounds, the thumbnail
dimensions are the integer truncations of `w*r` and `h*r` with
`r = min(max_w/w, max_h/h)`, and before truncation the scaling preserves the
aspect ratio exactly: `(w*r)/(h*r) = w/h`.  The 0.01 tolerance on the
truncated dimensions does not hold in general. -/
theorem claim_c8 (w h mw mh : Nat)
    (hw : 0 < w) (hh : 0 < h) (hmw : 0 < mw) (hmh : 0 < mh) :
    generate_thumbnail ⟨w, h⟩ mw mh =
      ⟨qtrunc ((w : ℚ) * min ((mw : ℚ) / (w : ℚ)) ((mh : ℚ) / (h : ℚ))),
       qtrunc ((h : ℚ) * min ((mw : ℚ) / (w : ℚ)) ((mh : ℚ) / (h : ℚ)))⟩ ∧
    ((w : ℚ) * min ((mw : ℚ) / (w : ℚ)) ((mh : ℚ) / (h : ℚ))) /
        ((h : ℚ) * min ((mw : ℚ) / (w : ℚ)) ((mh : ℚ) / (h : ℚ))) = (w : ℚ) / (h : ℚ) := by
  constructor
  · rfl
  · have hr : (0 : ℚ) < min ((mw : ℚ) / (w : ℚ)) ((mh : ℚ) / (h : ℚ)) :=
      lt_min (div_pos (by exact_mod_cast hmw) (by exact_mod_cast hw))
        (div_pos (by exact_mod_cast hmh) (by exact_mod_cast hh))
    rw [mul_comm (w : ℚ), mul_comm (h : ℚ)]
    exact mul_div_mul_left _ _ (ne_of_gt hr)

/-- Witness for claim C8 (amended): a 4×3 image with the default 200×150
bounds scales by ratio 50 to exactly 200×150. -/
theorem claim_c8_witness : generate_thumbnail ⟨4, 3⟩ 200 150 = ⟨200, 150⟩ := by
  have h := claim_c8 4 3 200 150 (by decide) (by decide) (by decide) (by decide)
  rw [h.1]
  have hmin : min (((200 : ℕ) : ℚ) / ((4 : ℕ) : ℚ)) (((150 : ℕ) : ℚ) / ((3 : ℕ) : ℚ)) =
      ((150 : ℕ) : ℚ) / ((3 : ℕ) : ℚ) := by
    rw [min_def]
    norm_num
  rw [hmin, qtrunc_mul_div, qtrunc_mul_div]

/-- Any image produced by `capture_mss` is one of the environment's monitor
grabs, so it has positive dimensions when those do. -/
lemma capture_mss_pos (m : MssEnv) (hm : m.monitors.all imgPos = true) :
    ∀ i, capture_mss m = some i → 0 < i.width ∧ 0 < i.height := by
  intro i h
  unfold capture_mss at h
  split at h
  · exact absurd h (by simp)
  · rcases hmon : m.monitors with _ | ⟨m0, _ | ⟨m1, rest⟩⟩ <;> rw [hmon] at h
    · exact absurd h (by simp)
    · have : m0 = i := by simpa using h
      subst this
      have := (List.all_eq_true.mp hm) m0 (by rw [hmon]; exact List.mem_cons_self _ _)
      simpa [imgPos] using this
    · have : m1 = i := by simpa using h
      subst this
      have := (List.all_eq_true.mp hm) m1
        (by rw [hmon]; exact List.mem_cons_of_mem _ (List.mem_cons_self _ _))
      simpa [imgPos] using this

/-- Any image produced by the permission dialog comes from `capture_mss`. -/
lemma show_permission_dialog_pos (env : MacEnv)
    (hm : env.mss.monitors.all imgPos = true) :
    ∀ i, show_permission_dialog env = some i → 0 < i.width ∧ 0 < i.height := by
  intro i h
  unfold show_permission_dialog at h
  split at h
  · exact capture_mss_pos env.mss hm i h
  · split at h
    · exact capture_mss_pos env.mss hm i h
    · exact absurd h (by simp)

/-- The macOS capture path returns absent, the dialog result, or the decoded
final image. -/
lemma macos_result_cases (env : MacEnv) :
    (capture_macos_with_permission_check env).1 = none ∨
    (capture_macos_with_permission_check env).1 = show_permission_dialog env ∨
    ∃ fi, env.finalDecode = some fi ∧
      (capture_macos_with_permission_check env).1 = some fi := by
  unfold capture_macos_with_permission_check
  repeat' split
  all_goals first
    | exact Or.inl rfl
    | exact Or.inr (Or.inl rfl)
    | (rename_i fi heq; exact Or.inr (Or.inr ⟨fi, heq, rfl⟩))

/-- Claim C4 (amended): `capture_full_screen` returns either absent or an
image with positive dimensions (whenever the environment's decoded images and
monitor grabs are well formed, as PIL and MSS guarantee), and on the final
native capture a non-zero exit code or a non-existent output file yields
absent.  A failing test capture or an undecodable (e.g. zero-byte) output is
routed to the permission dialog instead, which may fall back to an MSS capture
rather than absent. -/
theorem claim_c4 (isDarwin : Bool) (env : MacEnv) (henv : envImagesPos env = true) :
    (∀ i, (capture_full_screen isDarwin env).1 = some i →
      0 < i.width ∧ 0 < i.height) ∧
    (env.testRun.raised = false → env.testRun.returncode = 0 → env.testExists = true →
      fewColors env.testColors = false → env.finalRun.raised = false →
      (env.finalRun.returncode ≠ 0 ∨ env.finalExists = false) →
      ∀ ti, env.testDecode = some ti →
        (capture_macos_with_permission_check env).1 = none) := by
  have henv' := henv
  unfold envImagesPos at henv'
  rw [Bool.and_eq_true, Bool.and_eq_true] at henv'
  obtain ⟨⟨htd, hfd⟩, hmon⟩ := henv'
  constructor
  · intro i h
    unfold capture_full_screen at h
    split at h
    · rcases macos_result_cases env with hc | hc | ⟨fi, hfi, hc⟩
      · rw [hc] at h
        exact absurd h (by simp)
      · rw [hc] at h
        exact show_permission_dialog_pos env hmon i h
      · rw [hc] at h
        have : fi = i := by simpa using h
        subst this
        rw [hfi] at hfd
        simpa [optPos, imgPos] using hfd
    · exact capture_mss_pos env.mss hmon i h
  · intro h1 h2 h3 h4 h5 h6 ti hti
    rcases h6 with h6 | h6 <;>
      simp [capture_macos_with_permission_check, h1, h2, h3, h4, h5, h6, hti]

/-- Counterexample to claim C4 as stated: `envZeroByteFinal` makes the final
`screencapture` run exit 0 but write a zero-byte (undecodable) output file,
yet `capture_full_screen` on the macOS path returns an 800×600 MSS image via
the permission dialog, not absent. -/
theorem claim_c4_counterexample :
    envZeroByteFinal.finalRun.returncode = 0 ∧ envZeroByteFinal.finalDecode = none ∧
    (capture_full_screen true envZeroByteFinal).1 = some ⟨800, 600⟩ := by
  decide

/-- Witness for claim C4 (amended): on a plain MSS platform with one 800×600
monitor the returned image has positive dimensions, and in `envFinalFails`
(final capture exits 1) the macOS path returns absent. -/
theorem claim_c4_witness :
    (0 < (800 : Nat) ∧ 0 < (600 : Nat)) ∧
    (capture_macos_with_permission_check envFinalFails).1 = none :=
  ⟨(claim_c4 false envZeroByteFinal (by decide)).1 ⟨800, 600⟩ (by decide),
   (claim_c4 true envFinalFails (by decide)).2 rfl rfl rfl rfl rfl
     (Or.inl (by decide)) ⟨1440, 900⟩ rfl⟩

/-- Counterexample to claim C5 as stated: in `envTestRaises` the test
`screencapture` run raises (e.g. a timeout) after `temp_test` was created; the
exception handler returns via the permission dialog and the temp file is still
on disk when the routine returns — it is not deleted on this exceptional exit
path. -/
theorem claim_c5_counterexample :
    envTestRaises.testRun.raised = true ∧
    (capture_macos_with_permission_check envTestRaises).2.tempTest = true := by
  decide

/-- Claim C5 (amended): on every run of the macOS capture path in which no
exception is raised (both `screencapture` calls return and both image decodes
succeed), every temporary file created is deleted before the routine returns;
deletion is not guaranteed on exceptional paths. -/
theorem claim_c5 (env : MacEnv)
    (h1 : env.testRun.raised = false) (h2 : env.finalRun.raised = false)
    (h3 : env.testDecode.isSome = true) (h4 : env.finalDecode.isSome = true) :
    (capture_macos_with_permission_check env).2 = ⟨false, false⟩ := by
  obtain ⟨ti, hti⟩ := Option.isSome_iff_exists.mp h3
  obtain ⟨fi, hfi⟩ := Option.isSome_iff_exists.mp h4
  simp only [capture_macos_with_permission_check, h1, h2, hti, hfi,
    Bool.false_eq_true, if_false]
  repeat' split
  all_goals rfl

/-- Witness for claim C5 (amended): the fully successful capture `envAllOk`
leaves no temp file behind. -/
theorem claim_c5_witness :
    (capture_macos_with_permission_check envAllOk).2 = ⟨false, false⟩ :=
  claim_c5 envAllOk rfl rfl rfl rfl

/-- Claim C3: when the capture step returns absent, the orchestrator reports
the capture failure and resets to idle, and the cycle performs zero calls to
the network model client — regardless of approval or mock-mode settings. -/
theorem claim_c3 (userApproves mock : Bool) :
    networkCalls (analysis_cycle none userApproves mock) = 0 ∧
    UiEvent.setStatus "Screenshot failed" ∈ analysis_cycle none userApproves mock ∧
    UiEvent.resetUi ∈ analysis_cycle none userApproves mock := by
  refine ⟨?_, ?_, ?_⟩ <;>
    simp [analysis_cycle, analyze_screen_thread, networkCalls, isInvokeModel]

/-- The serialization invariant is preserved along every valid trace. -/
lemma orchInv_preserved (evs : List OrchEvent) (s : AppState)
    (h : orchInv s) (hv : validFrom s evs = true) : orchInv (runTrace s evs) := by
  induction evs generalizing s with
  | nil => exact h
  | cons e rest ih =>
    rw [validFrom.eq_def, Bool.and_eq_true] at hv
    obtain ⟨hguard, hrest⟩ := hv
    refine ih (orch_step s e) ?_ hrest
    obtain ⟨h1, h2⟩ := h
    cases e with
    | clickAnalyze =>
      by_cases ha : s.analyzing = true
      · simpa [orch_step, on_analyze_clicked, ha] using ⟨h1, h2⟩
      · have h0 : s.inFlight = 0 := by
          rcases Nat.lt_or_ge s.inFlight 1 with hlt | hge
          · omega
          · exact absurd (h2.mpr (by omega)) ha
        simp [orch_step, on_analyze_clicked, ha, orchInv, h0]
    | cycleEnd =>
      have hfl : s.inFlight = 1 := h2.mp hguard
      simp [orch_step, reset_ui, orchInv, hfl]

/-- Claim C6: from the initial state, along any event sequence in which cycle
ends are reported only by running cycles, at most one analysis cycle is in
flight at any time and the `analyzing` flag is set exactly while one is;
moreover triggering the analyze action while the flag is set is a no-op, and
triggering it while clear sets the flag (cycle start). -/
theorem claim_c6 (evs : List OrchEvent) (hv : validFrom initState evs = true) :
    (runTrace initState evs).inFlight ≤ 1 ∧
    ((runTrace initState evs).analyzing = true ↔ (runTrace initState evs).inFlight = 1) ∧
    (∀ s : AppState, s.analyzing = true → on_analyze_clicked s = s) ∧
    (∀ s : AppState, s.analyzing = false → (on_analyze_clicked s).analyzing = true) := by
  have h := orchInv_preserved evs initState (by constructor <;> simp [initState]) hv
  refine ⟨h.1, h.2, ?_, ?_⟩
  · intro s ha
    simp [on_analyze_clicked, ha]
  · intro s ha
    simp [on_analyze_clicked, ha]

/-- Witness for claim C6 on the concrete trace click, click (a no-op while
analyzing), cycle end. -/
theorem claim_c6_witness :
    (runTrace initState
      [OrchEvent.clickAnalyze, OrchEvent.clickAnalyze, OrchEvent.cycleEnd]).inFlight ≤ 1 ∧
    ((runTrace initState
      [OrchEvent.clickAnalyze, OrchEvent.clickAnalyze, OrchEvent.cycleEnd]).analyzing = true ↔
     (runTrace initState
      [OrchEvent.clickAnalyze, OrchEvent.clickAnalyze, OrchEvent.cycleEnd]).inFlight = 1) := by
  have h := claim_c6 [OrchEvent.clickAnalyze, OrchEvent.clickAnalyze, OrchEvent.cycleEnd]
    (by decide)
  exact ⟨h.1, h.2.1⟩

/-- Counterexample to claim C9 as stated: with `AWS_BEARER_TOKEN_BEDROCK` set
in the environment but equal to the empty string, `setup_aws_client` selects
the static-credential strategy (`using_bearer_token` is `False`), because the
source tests the token with Python truthiness, not with "is set". -/
theorem claim_c9_counterexample :
    (some "" : Option String) ≠ none ∧
    (setup_aws_client (some "") none true none).using_bearer_token = false := by
  constructor
  · decide
  · rfl

/-- Claim C9 (amended): given the bearer-token environment variable is unset
or set to the empty string, `setup_aws_client` selects the static-credential
strategy (`using_bearer_token` is `False` and a standard signed client is
created, on every sub-path); given it is set to a non-empty value, the
bearer-token strategy is selected (`using_bearer_token` is `True` and the
token is stored). -/
theorem claim_c9 (envBearer envRegion : Option String) (stsOk : Bool)
    (dialogResult : Option Creds) :
    (envTruthy envBearer = false →
      (setup_aws_client envBearer envRegion stsOk dialogResult).using_bearer_token
          = false ∧
      ∃ r, (setup_aws_client envBearer envRegion stsOk dialogResult).bedrock
          = BedrockClient.standardClient r) ∧
    (envTruthy envBearer = true →
      (setup_aws_client envBearer envRegion stsOk dialogResult).using_bearer_token
          = true ∧
      (setup_aws_client envBearer envRegion stsOk dialogResult).bedrock_token
          = envBearer) := by
  constructor
  · intro h
    unfold setup_aws_client
    rw [h]
    simp only [Bool.false_eq_true, if_false]
    rcases stsOk with _ | _
    · simp only [Bool.false_eq_true, if_false]
      rcases dialogResult with _ | c
      · exact ⟨rfl, getRegion envRegion, rfl⟩
      · exact ⟨rfl, c.region, rfl⟩
    · exact ⟨rfl, getRegion envRegion, rfl⟩
  · intro h
    unfold setup_aws_client
    rw [h]
    exact ⟨rfl, rfl⟩

/-- Witness for claim C9 (amended) at an unset variable (static strategy) and
at a non-empty token (bearer strategy). -/
theorem claim_c9_witness :
    ((setup_aws_client none none true none).using_bearer_token = false ∧
      ∃ r, (setup_aws_client none none true none).bedrock
        = BedrockClient.standardClient r) ∧
    ((setup_aws_client (some "tok") none true none).using_bearer_token = true ∧
      (setup_aws_client (some "tok") none true none).bedrock_token = some "tok") :=
  ⟨(claim_c9 none none true none).1 rfl,
   (claim_c9 (some "tok") none true none).2 (by decide)⟩
